import Mathlib

/-
Verification of the py-excel-api report service against its
natural-language specification.

The Python code is shallowly embedded:

* a worksheet cell value is `Value` (blank cell, string, or number); Python
  numbers (`int`/`float`) are both modelled as exact rationals `Rat`, so a
  "calculated total" is an exact arithmetic sum;
* a worksheet is a total function from (row, column) to `Value`, blank by
  default — `cell.value = x` becomes a pointwise update (formatting-only
  operations such as fonts, fills, borders and column widths do not change
  any cell value and are therefore not modelled);
* a data row (a JSON object / Python dict) is an association list
  `Row = List (String × Value)` in insertion order; dict-key uniqueness is
  carried as a `Nodup` hypothesis where a proof needs it;
* raising an exception is `Except.error`, the exception's `str(e)` being the
  carried string;
* the filesystem of the templates directory is a list of file names.

Each Python function of `app/services/excel_service.py`,
`app/services/template_service.py` and `app/models/reports.py` that the
claims touch is translated line by line below, keeping its source name.
-/

namespace PyExcel

/-- A spreadsheet cell value: blank (`None`), a string, or a number.
Python `int`/`float` are modelled together as `Rat`. -/
inductive Value where
  | none : Value
  | str : String → Value
  | num : Rat → Value
deriving DecidableEq, Repr

/-- A data row: a Python dict in insertion order. -/
abbrev Row : Type := List (String × Value)

/-- Python `s.lower()` (ASCII), computed structurally on the character
list so that it evaluates inside the kernel. -/
def pyLower (s : String) : String := String.mk (s.data.map Char.toLower)

/-- Python `s.endswith(suffix)`: suffix test on the character sequence. -/
def pyEndsWith (s suffix : String) : Bool := suffix.data.isSuffixOf s.data

/-- Python `s.strip()`: drop leading and trailing whitespace. -/
def pyStrip (s : String) : String :=
  String.mk (((s.data.dropWhile Char.isWhitespace).reverse.dropWhile Char.isWhitespace).reverse)

/-- Python `c in s` for a single character. -/
def pyContainsChar (s : String) (c : Char) : Bool := s.data.contains c

/-- Substring occurrence on character lists (`pat` occurs somewhere in the
list), structurally recursive. -/
def listContainsSub (pat : List Char) : List Char → Bool
  | [] => pat.isPrefixOf []
  | a :: rest => pat.isPrefixOf (a :: rest) || listContainsSub pat rest

/-- Python `pat in s` for strings. -/
def strContainsSub (s pat : String) : Bool := listContainsSub pat.data s.data

/-- A worksheet: a total assignment of values to (row, column) cells,
blank everywhere initially. -/
def Worksheet : Type := Nat → Nat → Value

/-- A fresh worksheet: every cell blank. -/
def Worksheet.empty : Worksheet := fun _ _ => Value.none

/-- `worksheet.cell(row=r, column=c).value = v` -/
def Worksheet.setCell (ws : Worksheet) (r c : Nat) (v : Value) : Worksheet :=
  fun r' c' => if r' = r ∧ c' = c then v else ws r' c'

/-- Read a cell's value (blank cells read as `Value.none`). -/
def Worksheet.getCell (ws : Worksheet) (r c : Nat) : Value := ws r c

/-- Python dict membership/lookup `column_name in row_data` /
`row_data[column_name]` on the association-list model: first binding wins
(a real dict has unique keys). -/
def rowAssoc (row_data : Row) (k : String) : Option Value :=
  match row_data with
  | [] => Option.none
  | kv :: rest => if kv.1 = k then some kv.2 else rowAssoc rest k

/-- `ExcelUtilities.add_headers` (excel_service.py lines 38-42):
`for col_idx, header_name in enumerate(headers, start_col): cell.value = header_name`,
unrolled as recursion carrying the running `col_idx`. -/
def add_headers : List String → Nat → Nat → Worksheet → Worksheet
  | [], _, _, ws => ws
  | header_name :: rest, row, col_idx, ws =>
    add_headers rest row (col_idx + 1) (ws.setCell row col_idx (Value.str header_name))

/-- The inner loop of `ExcelUtilities.populate_data_rows` (lines 55-58):
for each `(col_idx, column_name)` from `enumerate(columns, start_col)`,
write `row_data[column_name]` when the key is present. -/
def setRowCells (row_data : Row) (current_row : Nat) : List String → Nat → Worksheet → Worksheet
  | [], _, ws => ws
  | column_name :: rest, col_idx, ws =>
    let ws' :=
      match rowAssoc row_data column_name with
      | some v => ws.setCell current_row col_idx v
      | Option.none => ws
    setRowCells row_data current_row rest (col_idx + 1) ws'

/-- `ExcelUtilities.populate_data_rows` (lines 44-61): writes each row at
`current_row`, starting from `start_row`, and returns the worksheet together
with the next available row. -/
def populate_data_rows : List Row → List String → Nat → Nat → Worksheet → Worksheet × Nat
  | [], _, current_row, _, ws => (ws, current_row)
  | row_data :: rest, columns, current_row, start_col, ws =>
    populate_data_rows rest columns (current_row + 1) start_col
      (setRowCells row_data current_row columns start_col ws)

/-- One `totals` update of `ExcelUtilities.add_calculated_totals_row`
(lines 72-77): a numeric value under a key not ending in `"id"`
(case-insensitive) is added to that key's running total (`0.0` if absent).
The Python dict `totals` is modelled as a partial map `String → Option Rat`. -/
def totalsAdd (totals : String → Option Rat) (column_name : String) (value : Value) :
    String → Option Rat :=
  match value with
  | Value.num q =>
    if pyEndsWith (pyLower column_name) "id" then totals
    else fun k => if k = column_name then some ((totals column_name).getD 0 + q) else totals k
  | _ => totals

/-- The inner loop over `row_data.items()` of lines 72-77. -/
def totalsOfRow (totals : String → Option Rat) (row_data : Row) : String → Option Rat :=
  row_data.foldl (fun t kv => totalsAdd t kv.1 kv.2) totals

/-- The full totals accumulation of lines 69-77, over every row. -/
def computeTotals (data_rows : List Row) : String → Option Rat :=
  data_rows.foldl totalsOfRow (fun _ => Option.none)

/-- The write-back loop of `add_calculated_totals_row` (lines 80-88):
the cell at `start_col` gets the label `"Total"`, any other enumerated column
present in `totals` gets its total, all others are left untouched. -/
def setTotalsCells (totals : String → Option Rat) (totals_row start_col : Nat) :
    List String → Nat → Worksheet → Worksheet
  | [], _, ws => ws
  | column_name :: rest, col_idx, ws =>
    let ws' :=
      if col_idx = start_col then ws.setCell totals_row col_idx (Value.str "Total")
      else
        match totals column_name with
        | some q => ws.setCell totals_row col_idx (Value.num q)
        | Option.none => ws
    setTotalsCells totals totals_row start_col rest (col_idx + 1) ws'

/-- `ExcelUtilities.add_calculated_totals_row` (lines 63-88).
Note the guard `if not data_rows: return` on line 66-67: with an empty row
list the worksheet is returned unchanged and no totals row is written. -/
def add_calculated_totals_row (ws : Worksheet) (columns : List String)
    (data_rows : List Row) (totals_row : Nat) (start_col : Nat) : Worksheet :=
  match data_rows with
  | [] => ws
  | _ :: _ => setTotalsCells (computeTotals data_rows) totals_row start_col columns start_col ws

/-- The worksheet built by `ExcelService._generate_template_1_report`
(lines 242-263): headers at row 1, data rows from row 2 with
`start_col = 1` (the Python call uses the default), then the calculated
totals row at `len(rows_data) + 2`.  The formatting calls
(`apply_header_formatting`, `apply_data_formatting`, `apply_totals_formatting`,
`apply_borders`, `auto_size_columns`) change no cell value and are omitted. -/
def generate_template_1_sheet (columns : List String) (rows_data : List Row) : Worksheet :=
  let ws := add_headers columns 1 1 Worksheet.empty
  let ws := (populate_data_rows rows_data columns 2 1 ws).1
  let totals_row := rows_data.length + 2
  add_calculated_totals_row ws columns rows_data totals_row 1

/-- The slice of a `ReportResponse` (app/models/reports.py) the claims use:
success flag, message, and the generated file (the serialized workbook,
modelled as the worksheet it contains). -/
structure ReportResult where
  success : Bool
  message : String
  file_data : Option Worksheet

/-- `ExcelService._generate_template_1_report` (lines 219-292), parametrised
by the template lookup's outcome: `template_info` is `some columns` when
`list_templates` found the template (its inferred column list), `none`
otherwise (lines 233-239).  On success the workbook of
`generate_template_1_sheet` is serialized into `file_data`. -/
def generate_template_1_report (template_info : Option (List String))
    (template_name : String) (rows_data : List Row) : ReportResult :=
  match template_info with
  | Option.none =>
    { success := false
      message := "Template " ++ template_name ++ " not found"
      file_data := Option.none }
  | some columns =>
    { success := true
      message := "Template-1 report generated successfully"
      file_data := some (generate_template_1_sheet columns rows_data) }

/-- `ExcelService._generate_generic_report` (lines 294-341): empty `rows`
fail with "No data provided for report generation" and no file; otherwise
`columns = list(rows_data[0].keys())` (insertion order), headers at row 1,
data rows from row 2. -/
def generate_generic_report (rows_data : List Row) : ReportResult :=
  match rows_data with
  | [] =>
    { success := false
      message := "No data provided for report generation"
      file_data := Option.none }
  | r0 :: _ =>
    let columns := r0.map Prod.fst
    let ws := add_headers columns 1 1 Worksheet.empty
    let ws := (populate_data_rows rows_data columns 2 1 ws).1
    { success := true
      message := "Generic report generated successfully"
      file_data := some ws }

/-- Outcome of `TemplateService.validate_template`: the dict
`{"valid": True, ...}` or `{"valid": False, "error": msg}`. -/
inductive ValidationResult where
  | valid : ValidationResult
  | invalid : String → ValidationResult
deriving DecidableEq, Repr

/-- `ExcelService.generate_report` (lines 185-217), the router, with the
validation outcome and the dispatched generator's outcome as inputs; the
generator may raise (`Except.error e` carrying `str(e)`), and the router's
`try/except` converts that into a failure response
`"Error generating report: " ++ str(e)` — nothing propagates. -/
def generate_report_route (validation : ValidationResult)
    (generated : Except String ReportResult) : ReportResult :=
  match validation with
  | ValidationResult.invalid err =>
    { success := false, message := err, file_data := Option.none }
  | ValidationResult.valid =>
    match generated with
    | Except.ok r => r
    | Except.error e =>
      { success := false
        message := "Error generating report: " ++ e
        file_data := Option.none }

/-- Python truthiness of a cell value, for `if header_cell.value:`
(template_service.py lines 120, 133): `None`, `""` and `0` are falsy. -/
def pyTruthy : Value → Bool
  | Value.none => false
  | Value.str s => decide (s ≠ "")
  | Value.num q => decide (q ≠ 0)

/-- Python `str(...)` on a cell value, for
`column_name = str(header_cell.value).strip()`. -/
def pyStr : Value → String
  | Value.none => "None"
  | Value.str s => s
  | Value.num q => toString q

/-- The table branch of `TemplateService._analyze_excel_structure`
(lines 110-127): `for col in range(min_col, max_col + 1)` over the first
table's range, appending `str(value).strip()` for every truthy header cell
and skipping the rest — the loop has no `break`.  The header row
`row=min_row` of the worksheet is abstracted as `cell : Nat → Value`. -/
def analyze_columns_table (cell : Nat → Value) (min_col max_col : Nat) : List String :=
  (List.range' min_col (max_col + 1 - min_col)).filterMap fun col =>
    if pyTruthy (cell col) then some (pyStrip (pyStr (cell col))) else none

/-- The scanning loop of the no-table branch (lines 131-138):
`for col in range(1, 20)` appends while cells are truthy and `break`s at the
first falsy one.  `range(1, 20)` yields the 19 columns 1..19 — the fuel
below is the remaining iteration count, starting at 19 — although the
comment on line 131 says "Check first 20 columns". -/
def headerScan (cell : Nat → Value) : Nat → Nat → List String
  | _, 0 => []
  | col, fuel + 1 =>
    if pyTruthy (cell col) then pyStrip (pyStr (cell col)) :: headerScan cell (col + 1) fuel
    else []

/-- The no-table branch of `TemplateService._analyze_excel_structure`
(lines 129-140), over row 1 of the active worksheet
(`cell c` = `worksheet.cell(row=1, column=c).value`). -/
def analyze_columns_noTable (cell : Nat → Value) : List String :=
  headerScan cell 1 19

/-- `TemplateService._generate_sample_value` (template_service.py lines
154-183): first-matching rule over `column_name.lower()`, in source order;
`1000.50` and `0.0` are the `Rat` images of the Python floats. -/
def generate_sample_value (column_name : String) : Value :=
  let column_lower := pyLower column_name
  if strContainsSub column_lower "id" then Value.str "RULE001"
  else if ["group", "center", "category", "type"].any (fun k => strContainsSub column_lower k) then
    Value.str "Sample Group"
  else if ["amount", "rate", "cost", "price", "total"].any
      (fun k => strContainsSub column_lower k) then
    Value.num (1000.50 : Rat)
  else if ["diff", "variance", "delta"].any (fun k => strContainsSub column_lower k) then
    Value.num (0 : Rat)
  else Value.str "Sample Value"

/-- The path-unsafe characters of `ReportRequest.validate_template_name`
(app/models/reports.py line 50). -/
def invalid_chars : List Char := ['/', '\\', ':', '*', '?', '\"', '<', '>', '|']

/-- `any(char in v for char in invalid_chars)` (line 51). -/
def hasInvalidChar (v : String) : Bool :=
  invalid_chars.any (fun ch => pyContainsChar v ch)

/-- `ReportRequest.validate_template_name` (app/models/reports.py lines
37-54): trim, reject empty, force the `.xlsx` suffix, reject path-unsafe
characters.  A raised `ValueError` is `Except.error`. -/
def validate_template_name (v : String) : Except String String :=
  let v := pyStrip v
  if v = "" then Except.error "Template name cannot be empty"
  else
    let v := if pyEndsWith v ".xlsx" then v else v ++ ".xlsx"
    if hasInvalidChar v then Except.error "Template name contains invalid characters"
    else Except.ok v

/-- Python `pathlib.Path(...).suffix` of a file name: the substring from the
last dot, empty unless that dot sits strictly inside the name (neither a
leading dot nor a trailing one). -/
def pathSuffix (f : String) : String :=
  let cs := f.data
  if cs.contains '.' then
    let i := cs.length - 1 - List.indexOf '.' cs.reverse
    if 0 < i ∧ i < cs.length - 1 then String.mk (cs.drop i) else ""
  else ""

/-- `TemplateService.list_templates`, line 40: the files picked up by
`glob("*.xlsx") + glob("*.xls")` from the templates directory `files`
(per-file metadata extraction never drops a file: any analysis failure is
caught inside `_analyze_excel_structure` and yields empty columns). -/
def list_templates_files (files : List String) : List String :=
  files.filter (fun f => pyEndsWith f ".xlsx") ++ files.filter (fun f => pyEndsWith f ".xls")

/-- `TemplateService.get_template_path` (lines 185-200): the file must exist
in the templates directory and carry an `.xlsx`/`.xls` suffix
(lower-cased). -/
def get_template_path (files : List String) (filename : String) : Option String :=
  if files.contains filename ∧ (pyLower (pathSuffix filename) = ".xlsx" ∨
      pyLower (pathSuffix filename) = ".xls") then
    some filename
  else
    Option.none

/-- `TemplateService.validate_template` (lines 202-235).  The subsequent
`load_workbook` probe is assumed to succeed on an existing file (its failure
branch is irrelevant to the claims, which only exercise the not-found path
or valid templates). -/
def validate_template (files : List String) (filename : String) : ValidationResult :=
  match get_template_path files filename with
  | Option.none => ValidationResult.invalid ("Template '" ++ filename ++ "' not found")
  | some _ => ValidationResult.valid

/-- Numeric content of a looked-up cell value, 0 otherwise: the contribution
of one row to a column's calculated total. -/
def cellRat : Option Value → Rat
  | some (Value.num q) => q
  | _ => 0

/-- The arithmetic sum of a column's numeric values over a row list. -/
def colSum (data_rows : List Row) (c : String) : Rat :=
  (data_rows.map (fun r => cellRat (rowAssoc r c))).sum

theorem getCell_setCell_self (ws : Worksheet) (r c : Nat) (v : Value) :
    (ws.setCell r c v).getCell r c = v := by
  simp [Worksheet.setCell, Worksheet.getCell]

theorem getCell_setCell_ne_row (ws : Worksheet) (r c r' c' : Nat) (v : Value) (h : r' ≠ r) :
    (ws.setCell r c v).getCell r' c' = ws.getCell r' c' := by
  simp [Worksheet.setCell, Worksheet.getCell, h]

theorem getCell_setCell_ne_col (ws : Worksheet) (r c r' c' : Nat) (v : Value) (h : c' ≠ c) :
    (ws.setCell r c v).getCell r' c' = ws.getCell r' c' := by
  simp [Worksheet.setCell, Worksheet.getCell, h]

theorem add_headers_ne_row (hs : List String) (row : Nat) :
    ∀ (col : Nat) (ws : Worksheet) (r c : Nat), r ≠ row →
      (add_headers hs row col ws).getCell r c = ws.getCell r c := by
  induction hs with
  | nil => intro col ws r c _; rfl
  | cons hname rest ih =>
    intro col ws r c hr
    simp only [add_headers]
    rw [ih (col + 1) _ r c hr, getCell_setCell_ne_row _ _ _ _ _ _ hr]

theorem add_headers_lt_col (hs : List String) (row : Nat) :
    ∀ (col : Nat) (ws : Worksheet) (r c : Nat), c < col →
      (add_headers hs row col ws).getCell r c = ws.getCell r c := by
  induction hs with
  | nil => intro col ws r c _; rfl
  | cons hname rest ih =>
    intro col ws r c hc
    simp only [add_headers]
    rw [ih (col + 1) _ r c (Nat.lt_succ_of_lt hc),
      getCell_setCell_ne_col _ _ _ _ _ _ (by omega)]

theorem add_headers_ge_col (hs : List String) (row : Nat) :
    ∀ (col : Nat) (ws : Worksheet) (r c : Nat), col + hs.length ≤ c →
      (add_headers hs row col ws).getCell r c = ws.getCell r c := by
  induction hs with
  | nil => intro col ws r c _; rfl
  | cons hname rest ih =>
    intro col ws r c hc
    simp only [add_headers]
    rw [ih (col + 1) _ r c (by simp at hc; omega),
      getCell_setCell_ne_col _ _ _ _ _ _ (by simp at hc; omega)]

theorem add_headers_get (hs : List String) (row : Nat) :
    ∀ (col : Nat) (ws : Worksheet) (i : Nat) (hi : i < hs.length),
      (add_headers hs row col ws).getCell row (col + i) = Value.str (hs.get ⟨i, hi⟩) := by
  induction hs with
  | nil => intro col ws i hi; exact absurd hi (Nat.not_lt_zero i)
  | cons hname rest ih =>
    intro col ws i hi
    cases i with
    | zero =>
      simp only [add_headers, Nat.add_zero]
      rw [add_headers_lt_col rest row (col + 1) _ row col (Nat.lt_succ_self col)]
      simp [getCell_setCell_self]
    | succ j =>
      simp only [add_headers]
      have hshift : col + (j + 1) = (col + 1) + j := by omega
      rw [hshift, ih (col + 1) _ j (by simpa using hi)]
      rfl

theorem setRowCells_ne_row (rd : Row) (row : Nat) (cols : List String) :
    ∀ (col : Nat) (ws : Worksheet) (r c : Nat), r ≠ row →
      (setRowCells rd row cols col ws).getCell r c = ws.getCell r c := by
  induction cols with
  | nil => intro col ws r c _; rfl
  | cons cn rest ih =>
    intro col ws r c hr
    simp only [setRowCells]
    rw [ih (col + 1) _ r c hr]
    cases rowAssoc rd cn with
    | none => rfl
    | some v => exact getCell_setCell_ne_row _ _ _ _ _ _ hr

theorem setRowCells_lt_col (rd : Row) (row : Nat) (cols : List String) :
    ∀ (col : Nat) (ws : Worksheet) (r c : Nat), c < col →
      (setRowCells rd row cols col ws).getCell r c = ws.getCell r c := by
  induction cols with
  | nil => intro col ws r c _; rfl
  | cons cn rest ih =>
    intro col ws r c hc
    simp only [setRowCells]
    rw [ih (col + 1) _ r c (Nat.lt_succ_of_lt hc)]
    cases rowAssoc rd cn with
    | none => rfl
    | some v => exact getCell_setCell_ne_col _ _ _ _ _ _ (by omega)

theorem setRowCells_ge_col (rd : Row) (row : Nat) (cols : List String) :
    ∀ (col : Nat) (ws : Worksheet) (r c : Nat), col + cols.length ≤ c →
      (setRowCells rd row cols col ws).getCell r c = ws.getCell r c := by
  induction cols with
  | nil => intro col ws r c _; rfl
  | cons cn rest ih =>
    intro col ws r c hc
    simp only [setRowCells]
    rw [ih (col + 1) _ r c (by simp at hc; omega)]
    cases rowAssoc rd cn with
    | none => rfl
    | some v => exact getCell_setCell_ne_col _ _ _ _ _ _ (by simp at hc; omega)

theorem setRowCells_get (rd : Row) (row : Nat) (cols : List String) :
    ∀ (col : Nat) (ws : Worksheet) (i : Nat) (hi : i < cols.length),
      (setRowCells rd row cols col ws).getCell row (col + i) =
        match rowAssoc rd (cols.get ⟨i, hi⟩) with
        | some v => v
        | Option.none => ws.getCell row (col + i) := by
  induction cols with
  | nil => intro col ws i hi; exact absurd hi (Nat.not_lt_zero i)
  | cons cn rest ih =>
    intro col ws i hi
    cases i with
    | zero =>
      have hget : (cn :: rest).get ⟨0, hi⟩ = cn := rfl
      rw [hget]
      simp only [setRowCells, Nat.add_zero]
      rw [setRowCells_lt_col rd row rest (col + 1) _ row col (Nat.lt_succ_self col)]
      cases hassoc : rowAssoc rd cn with
      | none => rfl
      | some v => exact getCell_setCell_self _ _ _ _
    | succ j =>
      have hget : (cn :: rest).get ⟨j + 1, hi⟩ = rest.get ⟨j, by simpa using hi⟩ := rfl
      rw [hget]
      simp only [setRowCells]
      have hshift : col + (j + 1) = (col + 1) + j := by omega
      rw [hshift, ih (col + 1) _ j (by simpa using hi)]
      have hws : ∀ ws0 : Worksheet,
          (match rowAssoc rd cn with
           | some v => ws0.setCell row col v
           | Option.none => ws0).getCell row ((col + 1) + j) = ws0.getCell row ((col + 1) + j) := by
        intro ws0
        cases rowAssoc rd cn with
        | none => rfl
        | some v => exact getCell_setCell_ne_col _ _ _ _ _ _ (by omega)
      rw [hws ws]

theorem populate_fst_ne (rows : List Row) (cols : List String) :
    ∀ (cur sc : Nat) (ws : Worksheet) (r c : Nat),
      (r < cur ∨ cur + rows.length ≤ r) →
      ((populate_data_rows rows cols cur sc ws).1).getCell r c = ws.getCell r c := by
  induction rows with
  | nil => intro cur sc ws r c _; rfl
  | cons rd rest ih =>
    intro cur sc ws r c hr
    simp only [populate_data_rows]
    rw [ih (cur + 1) sc _ r c (by simp at hr; omega),
      setRowCells_ne_row rd cur cols sc ws r c (by simp at hr; omega)]

theorem populate_fst_col_out (rows : List Row) (cols : List String) :
    ∀ (cur sc : Nat) (ws : Worksheet) (r c : Nat),
      (c < sc ∨ sc + cols.length ≤ c) →
      ((populate_data_rows rows cols cur sc ws).1).getCell r c = ws.getCell r c := by
  induction rows with
  | nil => intro cur sc ws r c _; rfl
  | cons rd rest ih =>
    intro cur sc ws r c hc
    simp only [populate_data_rows]
    rw [ih (cur + 1) sc _ r c hc]
    cases hc with
    | inl h => exact setRowCells_lt_col rd cur cols sc ws r c h
    | inr h => exact setRowCells_ge_col rd cur cols sc ws r c h

theorem populate_fst_get (rows : List Row) (cols : List String) :
    ∀ (cur sc : Nat) (ws : Worksheet) (k : Nat) (hk : k < rows.length)
      (i : Nat) (hi : i < cols.length),
      ((populate_data_rows rows cols cur sc ws).1).getCell (cur + k) (sc + i) =
        match rowAssoc (rows.get ⟨k, hk⟩) (cols.get ⟨i, hi⟩) with
        | some v => v
        | Option.none => ws.getCell (cur + k) (sc + i) := by
  induction rows with
  | nil => intro cur sc ws k hk; exact absurd hk (Nat.not_lt_zero k)
  | cons rd rest ih =>
    intro cur sc ws k hk i hi
    cases k with
    | zero =>
      simp only [populate_data_rows, Nat.add_zero]
      rw [populate_fst_ne rest cols (cur + 1) sc _ cur _ (Or.inl (Nat.lt_succ_self cur))]
      exact setRowCells_get rd cur cols sc ws i hi
    | succ j =>
      have hget : (rd :: rest).get ⟨j + 1, hk⟩ = rest.get ⟨j, by simpa using hk⟩ := rfl
      rw [hget]
      simp only [populate_data_rows]
      have hshift : cur + (j + 1) = (cur + 1) + j := by omega
      rw [hshift, ih (cur + 1) sc _ j (by simpa using hk) i hi,
        setRowCells_ne_row rd cur cols sc ws ((cur + 1) + j) (sc + i) (by omega)]

theorem setTotals_ne_row (totals : String → Option Rat) (tr sc : Nat) (cols : List String) :
    ∀ (ci : Nat) (ws : Worksheet) (r c : Nat), r ≠ tr →
      (setTotalsCells totals tr sc cols ci ws).getCell r c = ws.getCell r c := by
  induction cols with
  | nil => intro ci ws r c _; rfl
  | cons cn rest ih =>
    intro ci ws r c hr
    simp only [setTotalsCells]
    rw [ih (ci + 1) _ r c hr]
    by_cases hsc : ci = sc
    · simp only [hsc, if_pos rfl]
      exact getCell_setCell_ne_row _ _ _ _ _ _ hr
    · simp only [if_neg hsc]
      cases totals cn with
      | none => rfl
      | some q => exact getCell_setCell_ne_row _ _ _ _ _ _ hr

theorem setTotals_lt_col (totals : String → Option Rat) (tr sc : Nat) (cols : List String) :
    ∀ (ci : Nat) (ws : Worksheet) (r c : Nat), c < ci →
      (setTotalsCells totals tr sc cols ci ws).getCell r c = ws.getCell r c := by
  induction cols with
  | nil => intro ci ws r c _; rfl
  | cons cn rest ih =>
    intro ci ws r c hc
    simp only [setTotalsCells]
    rw [ih (ci + 1) _ r c (Nat.lt_succ_of_lt hc)]
    by_cases hsc : ci = sc
    · simp only [hsc, if_pos rfl]
      exact getCell_setCell_ne_col _ _ _ _ _ _ (by omega)
    · simp only [if_neg hsc]
      cases totals cn with
      | none => rfl
      | some q => exact getCell_setCell_ne_col _ _ _ _ _ _ (by omega)

theorem setTotals_get (totals : String → Option Rat) (tr sc : Nat) (cols : List String) :
    ∀ (ci : Nat) (ws : Worksheet) (i : Nat) (hi : i < cols.length),
      (setTotalsCells totals tr sc cols ci ws).getCell tr (ci + i) =
        (if ci + i = sc then Value.str "Total"
         else
           match totals (cols.get ⟨i, hi⟩) with
           | some q => Value.num q
           | Option.none => ws.getCell tr (ci + i)) := by
  induction cols with
  | nil => intro ci ws i hi; exact absurd hi (Nat.not_lt_zero i)
  | cons cn rest ih =>
    intro ci ws i hi
    cases i with
    | zero =>
      have hget : (cn :: rest).get ⟨0, hi⟩ = cn := rfl
      rw [hget]
      simp only [setTotalsCells, Nat.add_zero]
      rw [setTotals_lt_col totals tr sc rest (ci + 1) _ tr ci (Nat.lt_succ_self ci)]
      by_cases hsc : ci = sc
      · simp only [hsc, if_pos rfl]
        exact getCell_setCell_self _ _ _ _
      · simp only [if_neg hsc]
        cases htot : totals cn with
        | none => rfl
        | some q => exact getCell_setCell_self _ _ _ _
    | succ j =>
      have hget : (cn :: rest).get ⟨j + 1, hi⟩ = rest.get ⟨j, by simpa using hi⟩ := rfl
      rw [hget]
      simp only [setTotalsCells]
      have hshift : ci + (j + 1) = (ci + 1) + j := by omega
      rw [hshift, ih (ci + 1) _ j (by simpa using hi)]
      have hws : ∀ ws0 : Worksheet,
          (if ci = sc then ws0.setCell tr ci (Value.str "Total")
           else
             match totals cn with
             | some q => ws0.setCell tr ci (Value.num q)
             | Option.none => ws0).getCell tr ((ci + 1) + j) =
            ws0.getCell tr ((ci + 1) + j) := by
        intro ws0
        by_cases hsc : ci = sc
        · simp only [hsc, if_pos rfl]
          exact getCell_setCell_ne_col _ _ _ _ _ _ (by omega)
        · simp only [if_neg hsc]
          cases totals cn with
          | none => rfl
          | some q => exact getCell_setCell_ne_col _ _ _ _ _ _ (by omega)
      rw [hws ws]

theorem totalsAdd_ne (t : String → Option Rat) (k : String) (v : Value) (c : String)
    (h : c ≠ k) : totalsAdd t k v c = t c := by
  cases v with
  | none => rfl
  | str s => rfl
  | num q =>
    simp only [totalsAdd]
    by_cases hk : pyEndsWith (pyLower k) "id"
    · simp [hk]
    · simp [hk, if_neg h]

theorem totalsAdd_id (t : String → Option Rat) (k : String) (v : Value) (c : String)
    (h : pyEndsWith (pyLower c) "id" = true) : totalsAdd t k v c = t c := by
  cases v with
  | none => rfl
  | str s => rfl
  | num q =>
    simp only [totalsAdd]
    by_cases hk : pyEndsWith (pyLower k) "id"
    · simp [hk]
    · have hck : c ≠ k := by
        intro hck
        rw [hck] at h
        exact absurd h (by simpa using hk)
      simp [hk, hck]

theorem totalsOfRow_not_mem (rd : Row) :
    ∀ (t : String → Option Rat) (c : String), c ∉ rd.map Prod.fst →
      totalsOfRow t rd c = t c := by
  induction rd with
  | nil => intro t c _; rfl
  | cons kv rest ih =>
    intro t c hc
    simp only [List.map_cons, List.mem_cons] at hc
    push_neg at hc
    show totalsOfRow (totalsAdd t kv.1 kv.2) rest c = t c
    rw [ih _ c hc.2, totalsAdd_ne t kv.1 kv.2 c hc.1]

theorem totalsOfRow_id (rd : Row) :
    ∀ (t : String → Option Rat) (c : String), pyEndsWith (pyLower c) "id" = true →
      totalsOfRow t rd c = t c := by
  induction rd with
  | nil => intro t c _; rfl
  | cons kv rest ih =>
    intro t c hc
    show totalsOfRow (totalsAdd t kv.1 kv.2) rest c = t c
    rw [ih _ c hc, totalsAdd_id t kv.1 kv.2 c hc]

theorem totalsOfRow_num (rd : Row) :
    ∀ (t : String → Option Rat) (c : String) (q : Rat),
      (rd.map Prod.fst).Nodup → rowAssoc rd c = some (Value.num q) →
      pyEndsWith (pyLower c) "id" = false →
      totalsOfRow t rd c = some ((t c).getD 0 + q) := by
  induction rd with
  | nil => intro t c q _ hassoc _; exact absurd hassoc (by simp [rowAssoc])
  | cons kv rest ih =>
    intro t c q hnd hassoc hid
    simp only [List.map_cons, List.nodup_cons] at hnd
    show totalsOfRow (totalsAdd t kv.1 kv.2) rest c = some ((t c).getD 0 + q)
    by_cases hk : kv.1 = c
    · have hv : kv.2 = Value.num q := by
        simp only [rowAssoc, if_pos hk] at hassoc
        exact Option.some.inj hassoc
      subst hk
      rw [totalsOfRow_not_mem rest _ kv.1 hnd.1, hv]
      simp [totalsAdd, hid]
    · have hassoc' : rowAssoc rest c = some (Value.num q) := by
        simpa only [rowAssoc, if_neg hk] using hassoc
      rw [ih _ c q hnd.2 hassoc' hid, totalsAdd_ne t kv.1 kv.2 c (fun h => hk h.symm)]

theorem foldl_totals_id (rs : List Row) :
    ∀ (t : String → Option Rat) (c : String), pyEndsWith (pyLower c) "id" = true →
      rs.foldl totalsOfRow t c = t c := by
  induction rs with
  | nil => intro t c _; rfl
  | cons r rest ih =>
    intro t c hc
    show rest.foldl totalsOfRow (totalsOfRow t r) c = t c
    rw [ih _ c hc, totalsOfRow_id r t c hc]

/-- A calculated totals map never holds an entry for a column whose name
ends in `"id"` (case-insensitive). -/
theorem computeTotals_id (rs : List Row) (c : String)
    (h : pyEndsWith (pyLower c) "id" = true) : computeTotals rs c = Option.none := by
  exact foldl_totals_id rs _ c h

theorem foldl_totals_num (rs : List Row) (c : String)
    (hid : pyEndsWith (pyLower c) "id" = false) :
    ∀ (t : String → Option Rat), rs ≠ [] →
      (∀ r ∈ rs, ((r : Row).map Prod.fst).Nodup ∧
        ∃ q : Rat, rowAssoc r c = some (Value.num q)) →
      rs.foldl totalsOfRow t c = some ((t c).getD 0 + colSum rs c) := by
  induction rs with
  | nil => intro t hne _; exact absurd rfl hne
  | cons r rest ih =>
    intro t _ hall
    obtain ⟨hnd, q, hq⟩ := hall r (List.mem_cons_self r rest)
    show rest.foldl totalsOfRow (totalsOfRow t r) c = _
    by_cases hrest : rest = []
    · subst hrest
      show totalsOfRow t r c = _
      rw [totalsOfRow_num r t c q hnd hq hid]
      simp [colSum, hq, cellRat]
    · rw [ih _ hrest (fun r' hr' => hall r' (List.mem_cons_of_mem r hr'))]
      rw [totalsOfRow_num r t c q hnd hq hid]
      simp only [Option.getD_some]
      have : colSum (r :: rest) c = q + colSum rest c := by
        simp [colSum, hq, cellRat]
      rw [this, add_assoc]

/-- For a non-empty row list in which every row binds column `c` to a number
and `c` does not end in `"id"`, the calculated totals map holds the exact
arithmetic column sum at `c`. -/
theorem computeTotals_num (rs : List Row) (c : String)
    (hne : rs ≠ [])
    (hall : ∀ r ∈ rs, ((r : Row).map Prod.fst).Nodup ∧
      ∃ q : Rat, rowAssoc r c = some (Value.num q))
    (hid : pyEndsWith (pyLower c) "id" = false) :
    computeTotals rs c = some (colSum rs c) := by
  show rs.foldl totalsOfRow (fun _ => Option.none) c = _
  rw [foldl_totals_num rs c hid _ hne hall]
  simp

/-- With at least one data row, `add_calculated_totals_row` runs its
write-back loop (the early return on line 66-67 is not taken). -/
theorem add_calculated_totals_row_cons (ws : Worksheet) (cols : List String)
    (rs : List Row) (tr sc : Nat) (hne : rs ≠ []) :
    add_calculated_totals_row ws cols rs tr sc =
      setTotalsCells (computeTotals rs) tr sc cols sc ws := by
  cases rs with
  | nil => exact absurd rfl hne
  | cons r rest => rfl

/-- Before the totals write-back, every cell of the totals row
`rs.length + 2` is blank: headers live in row 1 and data rows in rows
`2 .. rs.length + 1`. -/
theorem template1_pre_totals_blank (cols : List String) (rs : List Row) (c : Nat) :
    ((populate_data_rows rs cols 2 1 (add_headers cols 1 1 Worksheet.empty)).1).getCell
      (rs.length + 2) c = Value.none := by
  rw [populate_fst_ne rs cols 2 1 _ _ c (Or.inr (by omega)),
    add_headers_ne_row cols 1 (1 : Nat) _ _ c (by omega)]
  rfl

/-- **C1**, counterexample to the claim as stated: it quantifies over
*every* request "with N data rows", but at N = 0 the generated workbook has
no totals row at all — `add_calculated_totals_row` returns immediately on an
empty row list, so the cell at row 0 + 2 = 2, column 1 does not hold the
label `"Total"`. -/
theorem template1_totals_row_cex :
    ¬ ((generate_template_1_sheet ["x", "y"] []).getCell (0 + 2) 1 = Value.str "Total") := by
  decide

/-- **C1** (amended: for requests with at least one data row).  For every
Template-1 generation with rows `rs` (each row a dict, so with distinct
keys) and template columns `cols`, the totals row sits at row
`rs.length + 2`: its first column holds `"Total"`; a non-first column whose
name ends in `"id"` (case-insensitive) is excluded from summation and left
blank; and a non-first column whose name does not end in `"id"` and whose
value is numeric in every row holds the exact arithmetic sum of that column
over all rows. -/
theorem template1_totals_row (cols : List String) (rs : List Row)
    (hne : rs ≠ []) (hnd : ∀ r ∈ rs, ((r : Row).map Prod.fst).Nodup) :
    (cols ≠ [] →
      (generate_template_1_sheet cols rs).getCell (rs.length + 2) 1 = Value.str "Total") ∧
    (∀ (i : Nat) (hi : i < cols.length), 1 ≤ i →
      ((pyEndsWith (pyLower (cols.get ⟨i, hi⟩)) "id" = true →
        (generate_template_1_sheet cols rs).getCell (rs.length + 2) (i + 1) = Value.none) ∧
       (pyEndsWith (pyLower (cols.get ⟨i, hi⟩)) "id" = false →
        (∀ r ∈ rs, ∃ q : Rat, rowAssoc r (cols.get ⟨i, hi⟩) = some (Value.num q)) →
        (generate_template_1_sheet cols rs).getCell (rs.length + 2) (i + 1) =
          Value.num (colSum rs (cols.get ⟨i, hi⟩))))) := by
  have hunfold : generate_template_1_sheet cols rs =
      setTotalsCells (computeTotals rs) (rs.length + 2) 1 cols 1
        ((populate_data_rows rs cols 2 1 (add_headers cols 1 1 Worksheet.empty)).1) := by
    show add_calculated_totals_row _ cols rs (rs.length + 2) 1 = _
    exact add_calculated_totals_row_cons _ cols rs _ 1 hne
  constructor
  · intro hcols
    have hlen : 0 < cols.length := List.length_pos.mpr hcols
    have h := setTotals_get (computeTotals rs) (rs.length + 2) 1 cols 1
      ((populate_data_rows rs cols 2 1 (add_headers cols 1 1 Worksheet.empty)).1) 0 hlen
    rw [hunfold]
    simpa using h
  · intro i hi hi1
    have h := setTotals_get (computeTotals rs) (rs.length + 2) 1 cols 1
      ((populate_data_rows rs cols 2 1 (add_headers cols 1 1 Worksheet.empty)).1) i hi
    rw [Nat.add_comm 1 i] at h
    rw [if_neg (by omega)] at h
    constructor
    · intro hid
      rw [hunfold, h, computeTotals_id rs _ hid, template1_pre_totals_blank cols rs (i + 1)]
    · intro hid hnum
      rw [hunfold, h, computeTotals_num rs _ hne
        (fun r hr => ⟨hnd r hr, hnum r hr⟩) hid]

/-- Witness for the amended C1 on the spec's own concrete scenario
(augmented with a leading non-numeric column): two rows, totals row at
row 4, `"Total"` label in column 1, the id column blank, and the
`"Pool Amount"` total `100 + 50 = 150`. -/
theorem template1_totals_row_witness :
    (generate_template_1_sheet ["Name", "Rule ID", "Pool Amount"]
      [[("Name", Value.str "a"), ("Rule ID", Value.str "R1"), ("Pool Amount", Value.num 100)],
       [("Name", Value.str "b"), ("Rule ID", Value.str "R2"), ("Pool Amount", Value.num 50)]]).getCell
        4 1 = Value.str "Total" ∧
    (generate_template_1_sheet ["Name", "Rule ID", "Pool Amount"]
      [[("Name", Value.str "a"), ("Rule ID", Value.str "R1"), ("Pool Amount", Value.num 100)],
       [("Name", Value.str "b"), ("Rule ID", Value.str "R2"), ("Pool Amount", Value.num 50)]]).getCell
        4 2 = Value.none ∧
    (generate_template_1_sheet ["Name", "Rule ID", "Pool Amount"]
      [[("Name", Value.str "a"), ("Rule ID", Value.str "R1"), ("Pool Amount", Value.num 100)],
       [("Name", Value.str "b"), ("Rule ID", Value.str "R2"), ("Pool Amount", Value.num 50)]]).getCell
        4 3 = Value.num 150 := by
  have h := template1_totals_row ["Name", "Rule ID", "Pool Amount"]
    [[("Name", Value.str "a"), ("Rule ID", Value.str "R1"), ("Pool Amount", Value.num 100)],
     [("Name", Value.str "b"), ("Rule ID", Value.str "R2"), ("Pool Amount", Value.num 50)]]
    (by decide) (by decide)
  refine ⟨?_, ?_, ?_⟩
  · exact h.1 (by decide)
  · exact (h.2 1 (by decide) (by decide)).1 (by decide)
  · have h3 := (h.2 2 (by decide) (by decide)).2 (by decide)
      (by
        intro r hr
        simp only [List.mem_cons, List.not_mem_nil, or_false] at hr
        rcases hr with rfl | rfl
        · exact ⟨100, by decide⟩
        · exact ⟨50, by decide⟩)
    have hsum : colSum
        [[("Name", Value.str "a"), ("Rule ID", Value.str "R1"), ("Pool Amount", Value.num 100)],
         [("Name", Value.str "b"), ("Rule ID", Value.str "R2"), ("Pool Amount", Value.num 50)]]
        "Pool Amount" = 150 := by
      norm_num [colSum, cellRat, rowAssoc]
      rw [if_neg (by decide), if_neg (by decide), if_neg (by decide), if_neg (by decide)]
      norm_num
    rw [← hsum]
    exact h3

/-- **C2**, counterexample to the claim as stated: a Template-1 request with
zero input rows succeeds, but the workbook does *not* contain a totals row
at row 2 — `add_calculated_totals_row` returns without writing anything when
the row list is empty, so the cell at row 2, column 1 is blank rather than
the label `"Total"`. -/
theorem template1_zero_rows_cex :
    (generate_template_1_report (some ["a", "b"]) "Template-1.xlsx" []).success = true ∧
    ¬ ((generate_template_1_sheet ["a", "b"] []).getCell 2 1 = Value.str "Total") := by
  exact ⟨rfl, by decide⟩

/-- **C2** (amended).  A Template-1 generation request with zero input rows
succeeds and produces a workbook with the header row only: no totals row is
written — every cell of row 2 (where the claim expects the totals row) is
blank, with no `"Total"` label and no sums. -/
theorem template1_zero_rows (cols : List String) (name : String) :
    (generate_template_1_report (some cols) name []).success = true ∧
    (generate_template_1_report (some cols) name []).file_data =
      some (generate_template_1_sheet cols []) ∧
    ∀ j : Nat, (generate_template_1_sheet cols []).getCell 2 j = Value.none := by
  refine ⟨rfl, rfl, ?_⟩
  intro j
  have hsheet : generate_template_1_sheet cols [] = add_headers cols 1 1 Worksheet.empty := rfl
  rw [hsheet, add_headers_ne_row cols 1 1 _ 2 j (by omega)]
  rfl

/-- **C8**, counterexample to the claim as stated: the claim places each
row's fields in columns 2..N+1, so with the single column `"a"` the value
`7` would sit at row 2, column 2 — but the generator writes data with
`start_col = 1`: the value lands in column 1 and column 2 stays blank. -/
theorem template1_data_placement_cex :
    (generate_template_1_sheet ["a"] [[("a", Value.num 7)]]).getCell 2 1 = Value.num 7 ∧
    ¬ ((generate_template_1_sheet ["a"] [[("a", Value.num 7)]]).getCell 2 2 = Value.num 7) := by
  decide

/-- **C8** (amended: fields land in columns 1..N, not 2..N+1).  In Template-1
generation, input row `k` (0-based) is written at worksheet row `k + 2` —
one worksheet row per input row, in input order — and template column `i`
(0-based) at worksheet column `i + 1`, holding the row's value for that
column name, blank when the row lacks the key; keys outside the template
columns are ignored (all columns beyond `cols.length` stay blank). -/
theorem template1_data_placement (cols : List String) (rs : List Row)
    (k : Nat) (hk : k < rs.length) (i : Nat) (hi : i < cols.length) :
    ((generate_template_1_sheet cols rs).getCell (k + 2) (i + 1) =
      match rowAssoc (rs.get ⟨k, hk⟩) (cols.get ⟨i, hi⟩) with
      | some v => v
      | Option.none => Value.none) ∧
    (∀ j : Nat, cols.length < j →
      (generate_template_1_sheet cols rs).getCell (k + 2) j = Value.none) := by
  have hne : rs ≠ [] := by
    intro h
    rw [h] at hk
    exact absurd hk (by simp)
  have hunfold : generate_template_1_sheet cols rs =
      setTotalsCells (computeTotals rs) (rs.length + 2) 1 cols 1
        ((populate_data_rows rs cols 2 1 (add_headers cols 1 1 Worksheet.empty)).1) := by
    show add_calculated_totals_row _ cols rs (rs.length + 2) 1 = _
    exact add_calculated_totals_row_cons _ cols rs _ 1 hne
  constructor
  · rw [hunfold,
      setTotals_ne_row (computeTotals rs) (rs.length + 2) 1 cols 1 _ (k + 2) (i + 1) (by omega)]
    have hkc : k + 2 = 2 + k := by omega
    have hic : i + 1 = 1 + i := by omega
    rw [hkc, hic, populate_fst_get rs cols 2 1 _ k hk i hi,
      add_headers_ne_row cols 1 1 _ (2 + k) (1 + i) (by omega)]
    rfl
  · intro j hj
    rw [hunfold,
      setTotals_ne_row (computeTotals rs) (rs.length + 2) 1 cols 1 _ (k + 2) j (by omega),
      populate_fst_col_out rs cols 2 1 _ (k + 2) j (Or.inr (by omega)),
      add_headers_ge_col cols 1 1 _ (k + 2) j (by omega)]
    rfl

/-- Witness for the amended C8: one row `{colB: "v", extra: 1}` against the
template columns `[colA, colB]` — `"v"` lands at row 2 column 2, the missing
`colA` leaves row 2 column 1 blank, and the extra key is ignored (row 2
column 3 blank). -/
theorem template1_data_placement_witness :
    (generate_template_1_sheet ["colA", "colB"]
      [[("colB", Value.str "v"), ("extra", Value.num 1)]]).getCell 2 2 = Value.str "v" ∧
    (generate_template_1_sheet ["colA", "colB"]
      [[("colB", Value.str "v"), ("extra", Value.num 1)]]).getCell 2 1 = Value.none ∧
    (generate_template_1_sheet ["colA", "colB"]
      [[("colB", Value.str "v"), ("extra", Value.num 1)]]).getCell 2 3 = Value.none := by
  have h1 := template1_data_placement ["colA", "colB"]
    [[("colB", Value.str "v"), ("extra", Value.num 1)]] 0 (by decide) 1 (by decide)
  have h0 := template1_data_placement ["colA", "colB"]
    [[("colB", Value.str "v"), ("extra", Value.num 1)]] 0 (by decide) 0 (by decide)
  exact ⟨h1.1, h0.1, h1.2 3 (by decide)⟩

/-- The table-branch scan with every header cell non-empty keeps the full
width: helper for the amended C3, generalised over the start column. -/
theorem analyze_table_full_aux (cell : Nat → Value) :
    ∀ (n a : Nat), (∀ c, a ≤ c → c < a + n → pyTruthy (cell c) = true) →
      ((List.range' a n).filterMap fun col =>
        if pyTruthy (cell col) then some (pyStrip (pyStr (cell col))) else none).length = n := by
  intro n
  induction n with
  | zero => intro a _; rfl
  | succ m ih =>
    intro a hall
    rw [List.range'_succ a m 1]
    have ha : pyTruthy (cell a) = true := hall a (Nat.le_refl a) (by omega)
    simp only [List.filterMap_cons, ha, if_pos]
    rw [List.length_cons, ih (a + 1) (fun c hc1 hc2 => hall c (by omega) (by omega))]

/-- **C3**, counterexample to the claim as stated: a table range spanning
columns 1..3 whose middle header cell is empty yields a column list of
length 2, not the table's column count 3 — empty header cells inside the
range are skipped, shortening the list. -/
theorem table_columns_count_cex :
    ¬ ((analyze_columns_table
        (fun c => if c = 1 then Value.str "a" else if c = 3 then Value.str "b" else Value.none)
        1 3).length = 3) := by
  decide

/-- Each column of the scanned range contributes one entry when its header
cell is truthy and nothing otherwise, so the column list is exactly as long
as the list of non-empty header cells: helper for the amended C3. -/
theorem analyze_table_count_aux (cell : Nat → Value) :
    ∀ l : List Nat,
      (l.filterMap (fun col =>
        if pyTruthy (cell col) then some (pyStrip (pyStr (cell col))) else none)).length =
      (l.filter (fun col => pyTruthy (cell col))).length := by
  intro l
  induction l with
  | nil => rfl
  | cons a rest ih =>
    by_cases ha : pyTruthy (cell a) = true
    · simp only [List.filterMap_cons, List.filter_cons, ha, if_pos, List.length_cons, ih]
    · simp only [List.filterMap_cons, List.filter_cons, ha, if_neg, Bool.false_eq_true,
        ite_false, ih]

/-- **C3** (amended).  The table branch scans the full width of the first
table's range with no early termination, skipping columns whose header cell
is empty: the column list's length equals the number of non-empty (truthy)
header cells in the range — so empty cells contribute nothing — and hence
equals the table's column count exactly when every header cell in the range
is non-empty; moreover every non-empty header cell, including any after an
empty one, contributes its (stripped) name to the list. -/
theorem table_columns_scan (cell : Nat → Value) (min_col max_col : Nat) :
    ((analyze_columns_table cell min_col max_col).length =
      ((List.range' min_col (max_col + 1 - min_col)).filter
        (fun c => pyTruthy (cell c))).length) ∧
    ((∀ c, min_col ≤ c → c ≤ max_col → pyTruthy (cell c) = true) →
      (analyze_columns_table cell min_col max_col).length = max_col + 1 - min_col) ∧
    (∀ c, min_col ≤ c → c ≤ max_col → pyTruthy (cell c) = true →
      pyStrip (pyStr (cell c)) ∈ analyze_columns_table cell min_col max_col) := by
  refine ⟨?_, ?_, ?_⟩
  · exact analyze_table_count_aux cell (List.range' min_col (max_col + 1 - min_col))
  · intro hall
    exact analyze_table_full_aux cell (max_col + 1 - min_col) min_col
      (fun c hc1 hc2 => hall c hc1 (by omega))
  · intro c hc1 hc2 hc
    have hmem : c ∈ List.range' min_col (max_col + 1 - min_col) := by
      rw [List.mem_range'_1]
      omega
    unfold analyze_columns_table
    rw [List.mem_filterMap]
    exact ⟨c, hmem, by rw [hc]; rfl⟩

/-- Witness for the amended C3: with all of columns 1..3 non-empty the list
has length 3; with the middle header empty, the list length equals the
number of non-empty header cells in the range — which is 2, not the table
width 3 — and the header of the *last* column still makes it into the list
(no early termination at the gap). -/
theorem table_columns_scan_witness :
    (analyze_columns_table (fun _ => Value.str "h") 1 3).length = 3 ∧
    (analyze_columns_table
      (fun c => if c = 1 then Value.str "a" else if c = 3 then Value.str "b" else Value.none)
      1 3).length =
      ((List.range' 1 3).filter (fun c => pyTruthy
        ((fun c => if c = 1 then Value.str "a" else if c = 3 then Value.str "b" else Value.none)
          c))).length ∧
    ((List.range' 1 3).filter (fun c => pyTruthy
      ((fun c => if c = 1 then Value.str "a" else if c = 3 then Value.str "b" else Value.none)
        c))).length = 2 ∧
    "b" ∈ analyze_columns_table
      (fun c => if c = 1 then Value.str "a" else if c = 3 then Value.str "b" else Value.none)
      1 3 := by
  refine ⟨?_, ?_, by decide, ?_⟩
  · exact (table_columns_scan (fun _ => Value.str "h") 1 3).2.1 (fun c _ _ => by decide)
  · exact (table_columns_scan
      (fun c => if c = 1 then Value.str "a" else if c = 3 then Value.str "b" else Value.none)
      1 3).1
  · exact (table_columns_scan
      (fun c => if c = 1 then Value.str "a" else if c = 3 then Value.str "b" else Value.none)
      1 3).2.2 3 (by decide) (by decide) (by decide)

/-- **C4** (code bug, an off-by-one): the no-table fallback's loop is
`for col in range(1, 20)`, which iterates columns 1..19 only — although the
code's own comment on that line says "Check first 20 columns" and the claim
says a hard cap of 20.  On a worksheet whose row 1 has 20 or more contiguous
non-empty headers the scan returns 19 columns, not 20. -/
theorem noTable_scan_off_by_one :
    (analyze_columns_noTable (fun _ => Value.str "h")).length = 19 ∧
    ¬ ((analyze_columns_noTable (fun _ => Value.str "h")).length = 20) := by
  decide

/-- **C5**: the sample value synthesizer is a pure function of the column
name, evaluated by case-insensitive substring rules in fixed priority order
with the first match winning: `"id"` → `"RULE001"` (regardless of any later
rule also matching); otherwise group/center/category/type →
`"Sample Group"`; otherwise amount/rate/cost/price/total → `1000.50`;
otherwise diff/variance/delta → `0.0`; otherwise `"Sample Value"`. -/
theorem sample_value_rules (name : String) :
    (strContainsSub (pyLower name) "id" = true →
      generate_sample_value name = Value.str "RULE001") ∧
    (strContainsSub (pyLower name) "id" = false →
      ((["group", "center", "category", "type"].any
          (fun k => strContainsSub (pyLower name) k) = true →
        generate_sample_value name = Value.str "Sample Group") ∧
       (["group", "center", "category", "type"].any
          (fun k => strContainsSub (pyLower name) k) = false →
        ((["amount", "rate", "cost", "price", "total"].any
            (fun k => strContainsSub (pyLower name) k) = true →
          generate_sample_value name = Value.num (1000.50 : Rat)) ∧
         (["amount", "rate", "cost", "price", "total"].any
            (fun k => strContainsSub (pyLower name) k) = false →
          ((["diff", "variance", "delta"].any
              (fun k => strContainsSub (pyLower name) k) = true →
            generate_sample_value name = Value.num (0 : Rat)) ∧
           (["diff", "variance", "delta"].any
              (fun k => strContainsSub (pyLower name) k) = false →
            generate_sample_value name = Value.str "Sample Value"))))))) := by
  refine ⟨fun h1 => ?_, fun h1 => ⟨fun h2 => ?_, fun h2 => ⟨fun h3 => ?_, fun h3 =>
    ⟨fun h4 => ?_, fun h4 => ?_⟩⟩⟩⟩
  · simp only [generate_sample_value]
    rw [if_pos h1]
  · simp only [generate_sample_value]
    rw [if_neg (by simp [h1]), if_pos h2]
  · simp only [generate_sample_value]
    rw [if_neg (by simp [h1]), if_neg (by simp [h2]), if_pos h3]
  · simp only [generate_sample_value]
    rw [if_neg (by simp [h1]), if_neg (by simp [h2]), if_neg (by simp [h3]), if_pos h4]
  · simp only [generate_sample_value]
    rw [if_neg (by simp [h1]), if_neg (by simp [h2]), if_neg (by simp [h3]),
      if_neg (by simp [h4])]

/-- Witness for C5 at `"Paid Amount"`: its lower-casing contains both `"id"`
(inside "Paid") and `"amount"`, and the id rule wins by priority. -/
theorem sample_value_rules_witness :
    generate_sample_value "Paid Amount" = Value.str "RULE001" :=
  (sample_value_rules "Paid Amount").1 (by decide)

/-- **C6**: the generic (fallback) generator fails on an empty `rows`
sequence — non-success, message "No data provided for report generation"
(the spec's "no data provided"), no file bytes — and, on a non-empty
sequence, succeeds with its column list derived from exactly the keys of
`rows[0]` in their original insertion order: the header row of the produced
workbook holds key `i` of `rows[0]` at column `i + 1`, and nothing beyond
them. -/
theorem generic_report_behavior :
    ((generate_generic_report []).success = false ∧
     (generate_generic_report []).message = "No data provided for report generation" ∧
     (generate_generic_report []).file_data = Option.none) ∧
    (∀ (r0 : Row) (rest : List Row),
      (generate_generic_report (r0 :: rest)).success = true ∧
      ∃ ws : Worksheet, (generate_generic_report (r0 :: rest)).file_data = some ws ∧
        (∀ (i : Nat) (hi : i < r0.length), ws.getCell 1 (i + 1) = Value.str (r0.get ⟨i, hi⟩).1) ∧
        (∀ j : Nat, r0.length < j → ws.getCell 1 j = Value.none)) := by
  refine ⟨⟨rfl, rfl, rfl⟩, fun r0 rest => ⟨rfl, ?_⟩⟩
  refine ⟨_, rfl, fun i hi => ?_, fun j hj => ?_⟩
  · have him : i < (r0.map Prod.fst).length := by simpa using hi
    rw [populate_fst_ne (r0 :: rest) (r0.map Prod.fst) 2 1 _ 1 (i + 1) (Or.inl (by omega))]
    have hcomm : i + 1 = 1 + i := by omega
    rw [hcomm, add_headers_get (r0.map Prod.fst) 1 1 Worksheet.empty i him]
    have : (r0.map Prod.fst).get ⟨i, him⟩ = (r0.get ⟨i, hi⟩).1 := by
      simp
    rw [this]
  · have hj' : 1 + (r0.map Prod.fst).length ≤ j := by simp; omega
    rw [populate_fst_col_out (r0 :: rest) (r0.map Prod.fst) 2 1 _ 1 j (Or.inr hj'),
      add_headers_ge_col (r0.map Prod.fst) 1 1 Worksheet.empty 1 j hj']
    rfl

/-- Witness for C6: empty rows fail; with rows `[{x: 1, y: "v"}]` the
header row is exactly `x`, `y` at columns 1, 2 and blank at column 3. -/
theorem generic_report_behavior_witness :
    (generate_generic_report []).success = false ∧
    ∃ ws : Worksheet,
      (generate_generic_report [[("x", Value.num 1), ("y", Value.str "v")]]).file_data = some ws ∧
      ws.getCell 1 1 = Value.str "x" ∧ ws.getCell 1 2 = Value.str "y" ∧
      ws.getCell 1 3 = Value.none := by
  obtain ⟨hsucc, ws, hws, hget, hout⟩ :=
    generic_report_behavior.2 [("x", Value.num 1), ("y", Value.str "v")] []
  exact ⟨generic_report_behavior.1.1,
    ws, hws, hget 0 (by decide), hget 1 (by decide), hout 3 (by decide)⟩

/-- **C7**: the report router never lets an exception propagate.  When
template validation fails, it returns a non-success `ReportResult` carrying
the validation error message and no file bytes; when the dispatched
generator raises (`Except.error e`), the router's `try/except` converts it
into a non-success result carrying the exception's message (prefixed
"Error generating report: ") and no file bytes.  In the embedding the
router is a total function into `ReportResult`, so no outcome escapes as an
exception. -/
theorem report_router_no_propagation :
    (∀ (err : String) (gen : Except String ReportResult),
      generate_report_route (ValidationResult.invalid err) gen =
        { success := false, message := err, file_data := Option.none }) ∧
    (∀ e : String,
      generate_report_route ValidationResult.valid (Except.error e) =
        { success := false, message := "Error generating report: " ++ e,
          file_data := Option.none }) :=
  ⟨fun _ _ => rfl, fun _ => rfl⟩

/-- An invalid character found in `s` is still found in `s ++ t`: appending
the `.xlsx` suffix cannot erase a path-unsafe character. -/
theorem hasInvalidChar_append_left (s t : String) (h : hasInvalidChar s = true) :
    hasInvalidChar (s ++ t) = true := by
  simp only [hasInvalidChar, List.any_eq_true] at h ⊢
  obtain ⟨ch, hch, hcont⟩ := h
  refine ⟨ch, hch, ?_⟩
  simp only [pyContainsChar, String.data_append, List.contains] at hcont ⊢
  simp only [List.elem_eq_mem, List.mem_append, decide_eq_true_eq] at hcont ⊢
  exact Or.inl hcont

/-- **C9**: template-name normalization trims the input, rejects a name
empty after trimming, appends `.xlsx` when the trimmed name does not already
end in it, keeps it otherwise, and rejects any (trimmed) name containing one
of the path-unsafe characters / \\ : * ? " < > | — in particular
`"annual-report"` normalizes to `"annual-report.xlsx"` and
`"bad/name.xlsx"` is rejected as invalid. -/
theorem template_name_normalization :
    (∀ s : String, pyStrip s = "" →
      validate_template_name s = Except.error "Template name cannot be empty") ∧
    (∀ s : String, pyStrip s ≠ "" → pyEndsWith (pyStrip s) ".xlsx" = false →
      hasInvalidChar (pyStrip s ++ ".xlsx") = false →
      validate_template_name s = Except.ok (pyStrip s ++ ".xlsx")) ∧
    (∀ s : String, pyStrip s ≠ "" → pyEndsWith (pyStrip s) ".xlsx" = true →
      hasInvalidChar (pyStrip s) = false →
      validate_template_name s = Except.ok (pyStrip s)) ∧
    (∀ s : String, pyStrip s ≠ "" → hasInvalidChar (pyStrip s) = true →
      validate_template_name s = Except.error "Template name contains invalid characters") ∧
    validate_template_name "annual-report" = Except.ok "annual-report.xlsx" ∧
    validate_template_name "bad/name.xlsx" =
      Except.error "Template name contains invalid characters" := by
  refine ⟨fun s h => ?_, fun s h1 h2 h3 => ?_, fun s h1 h2 h3 => ?_, fun s h1 h2 => ?_,
    by rfl, by rfl⟩
  · simp only [validate_template_name]
    rw [if_pos h]
  · have hx : ¬ (pyEndsWith (pyStrip s) ".xlsx" = true) := by simp [h2]
    have hc : ¬ (hasInvalidChar (pyStrip s ++ ".xlsx") = true) := by simp [h3]
    simp only [validate_template_name]
    rw [if_neg h1, if_neg hx, if_neg hc]
  · have hc : ¬ (hasInvalidChar (pyStrip s) = true) := by simp [h3]
    simp only [validate_template_name]
    rw [if_neg h1, if_pos h2, if_neg hc]
  · simp only [validate_template_name]
    rw [if_neg h1]
    by_cases hx : pyEndsWith (pyStrip s) ".xlsx" = true
    · rw [if_pos hx, if_pos h2]
    · rw [if_neg hx, if_pos (hasInvalidChar_append_left (pyStrip s) ".xlsx" h2)]

/-- Witness for C9: `" Template-1 "` is trimmed and suffixed to
`"Template-1.xlsx"`, and an all-whitespace name is rejected as empty. -/
theorem template_name_normalization_witness :
    validate_template_name " Template-1 " = Except.ok "Template-1.xlsx" ∧
    validate_template_name "  " = Except.error "Template name cannot be empty" := by
  constructor
  · have h := template_name_normalization.2.1 " Template-1 "
      (by decide) (by decide) (by decide)
    rw [show pyStrip " Template-1 " ++ ".xlsx" = "Template-1.xlsx" from by decide] at h
    exact h
  · exact template_name_normalization.1 "  " (by decide)

/-- **C10**: a template file whose name ends in `.xls` (and not `.xlsx`) is
picked up by the listing glob, yet a generation request naming it can never
reach it: request normalization appends `.xlsx`, producing `<name>.xls.xlsx`,
which (absent such a file on disk) fails template validation with a
"not found" error that the router converts into a non-success result with
no file bytes — `.xls` templates are listable but never generatable. -/
theorem xls_listable_not_generatable (files : List String) (f : String)
    (hmem : f ∈ files)
    (hxls : pyEndsWith f ".xls" = true)
    (hnxlsx : pyEndsWith f ".xlsx" = false)
    (htrim : pyStrip f = f)
    (hchars : hasInvalidChar (f ++ ".xlsx") = false)
    (hnodisk : (f ++ ".xlsx") ∉ files) :
    f ∈ list_templates_files files ∧
    validate_template_name f = Except.ok (f ++ ".xlsx") ∧
    validate_template files (f ++ ".xlsx") =
      ValidationResult.invalid ("Template '" ++ (f ++ ".xlsx") ++ "' not found") ∧
    (∀ gen : Except String ReportResult,
      (generate_report_route (validate_template files (f ++ ".xlsx")) gen).success = false ∧
      (generate_report_route (validate_template files (f ++ ".xlsx")) gen).file_data =
        Option.none) := by
  have hne : pyStrip f ≠ "" := by
    rw [htrim]
    intro hempty
    rw [hempty] at hxls
    exact absurd hxls (by decide)
  have hval : validate_template_name f = Except.ok (f ++ ".xlsx") := by
    have hnef : ¬ (f = "") := htrim ▸ hne
    have hxf : ¬ (pyEndsWith f ".xlsx" = true) := by simp [hnxlsx]
    have hcf : ¬ (hasInvalidChar (f ++ ".xlsx") = true) := by simp [hchars]
    simp only [validate_template_name]
    rw [htrim, if_neg hnef, if_neg hxf, if_neg hcf]
  have hvalidate : validate_template files (f ++ ".xlsx") =
      ValidationResult.invalid ("Template '" ++ (f ++ ".xlsx") ++ "' not found") := by
    simp only [validate_template, get_template_path]
    rw [if_neg]
    intro hcond
    exact hnodisk (by simpa using hcond.1)
  refine ⟨?_, hval, hvalidate, fun gen => ?_⟩
  · unfold list_templates_files
    rw [List.mem_append]
    exact Or.inr (List.mem_filter.mpr ⟨hmem, hxls⟩)
  · rw [hvalidate]
    exact ⟨rfl, rfl⟩

/-- Witness for C10: the directory holds `Template-1.xlsx` and `legacy.xls`;
the `.xls` file is listed, its request name normalizes to
`legacy.xls.xlsx`, and generation fails (non-success, no file). -/
theorem xls_listable_not_generatable_witness :
    "legacy.xls" ∈ list_templates_files ["Template-1.xlsx", "legacy.xls"] ∧
    validate_template_name "legacy.xls" = Except.ok "legacy.xls.xlsx" ∧
    (generate_report_route
      (validate_template ["Template-1.xlsx", "legacy.xls"] ("legacy.xls" ++ ".xlsx"))
      (Except.ok { success := true, message := "", file_data := Option.none })).success =
        false := by
  have h := xls_listable_not_generatable ["Template-1.xlsx", "legacy.xls"] "legacy.xls"
    (by decide) (by decide) (by decide) (by decide) (by decide) (by decide)
  refine ⟨h.1, ?_, (h.2.2.2 _).1⟩
  have h2 := h.2.1
  rw [show ("legacy.xls" ++ ".xlsx" : String) = "legacy.xls.xlsx" from by decide] at h2
  exact h2

end PyExcel
